import Mathlib

/-!
Verification of the Preview Namespace Lifecycle Manager of
`vercel-preview-schema-per-branch`.

The development shallowly embeds the schema-name resolution logic of
`src/lib/schema-utils.ts`, the migration lifecycle script (`runMigrations`),
and the teardown drop issued by the cleanup workflow, and proves or refutes
the spec's claims about them.

Modelling notes:
- JavaScript strings are modelled as Lean `String` / `List Char` at Unicode
  scalar-value granularity.
- Environment variables are `Option String`; JavaScript truthiness of an
  environment variable (`if (process.env.X)`) is `truthy`: present and
  non-empty.
- `.toLowerCase()` is applied in the source only after every character has
  been forced into `[a-zA-Z0-9_]`, so ASCII-only `Char.toLower` (which agrees
  with the JavaScript function on ASCII) is a faithful model at that point.
-/

/-- JavaScript truthiness of an environment variable: set and non-empty. -/
def truthy (o : Option String) : Bool :=
  match o with
  | none => false
  | some s => !(s == "")

/-- Characters matched by neither JavaScript regex character class
`[^a-zA-Z0-9_]` nor replaced earlier: ASCII letters, digits, underscore
(`sanitizeBranchName`, second `.replace`). -/
def isAllowedChar (c : Char) : Bool :=
  (65 ≤ c.toNat && c.toNat ≤ 90) || (97 ≤ c.toNat && c.toNat ≤ 122) ||
    (48 ≤ c.toNat && c.toNat ≤ 57) || c.toNat == 95

/-- Lowercase form of the whitelist: lowercase ASCII letters, digits,
underscore. The sanitizer's output characters all satisfy this. -/
def isLowerAllowedChar (c : Char) : Bool :=
  (97 ≤ c.toNat && c.toNat ≤ 122) || (48 ≤ c.toNat && c.toNat ≤ 57) ||
    c.toNat == 95

/-- First `.replace` of `sanitizeBranchName`: `/[\/\-]/g` to underscore
(code points 47 and 45). -/
def sanitizeStep1 (c : Char) : Char :=
  if c.toNat == 47 || c.toNat == 45 then '_' else c

/-- Second `.replace` of `sanitizeBranchName`: `/[^a-zA-Z0-9_]/g` to
underscore. Note the source replaces with underscore; it does not delete. -/
def sanitizeStep2 (c : Char) : Char :=
  if isAllowedChar c then c else '_'

/-- The character pipeline of `sanitizeBranchName` applied to a list of
characters: the two `.replace` passes, `.toLowerCase()`, `.substring(0, 60)`. -/
def sanitizeList (l : List Char) : List Char :=
  (((l.map sanitizeStep1).map sanitizeStep2).map Char.toLower).take 60

/-- `sanitizeBranchName` from `src/lib/schema-utils.ts`: the character
pipeline, then the `|| 'public'` fallback for the empty string. -/
def sanitizeBranchName (branch : String) : String :=
  let s := sanitizeList branch.data
  if s = [] then "public" else String.mk s

/-- The environment signals read by `getSchemaName`, with the source's
variable names. -/
structure Env where
  DB_SCHEMA : Option String
  VERCEL_GIT_PULL_REQUEST_ID : Option String
  VERCEL_GIT_COMMIT_REF : Option String

/-- `getSchemaName` from `src/lib/schema-utils.ts`: explicit override, then
pull-request number as `pr_<id>`, then sanitized branch name, then the
`public` default. Each guard is JavaScript truthiness of the variable. -/
def getSchemaName (env : Env) : String :=
  if truthy env.DB_SCHEMA then env.DB_SCHEMA.getD ""
  else if truthy env.VERCEL_GIT_PULL_REQUEST_ID then
    "pr_" ++ env.VERCEL_GIT_PULL_REQUEST_ID.getD ""
  else if truthy env.VERCEL_GIT_COMMIT_REF then
    sanitizeBranchName (env.VERCEL_GIT_COMMIT_REF.getD "")
  else "public"

/-- A non-empty all-digit string: the shape of a numeric pull-request-number
signal. -/
def isNumericString (s : String) : Bool :=
  !(s == "") && s.data.all (fun c => 48 ≤ c.toNat && c.toNat ≤ 57)

/-- The NamespaceIdentifier invariant exactly as the spec's data model states
it (restated from the spec for comparison with the code): non-empty,
lowercase-letter/digit/underscore characters only, at most 60 characters, and
distinct from the reserved identifiers. -/
def NamespaceInvariantSpec (s : String) : Prop :=
  s ≠ "" ∧ (∀ c ∈ s.data, isLowerAllowedChar c = true) ∧ s.length ≤ 60 ∧
    s ≠ "pg_catalog" ∧ s ≠ "information_schema"

/-- The fallible awaited steps of the migration script `runMigrations`:
either one of them throws (caught by the script's `catch`, which logs and
calls `process.exit(1)`), or none does. -/
inductive FailAt
  | atInit
  | atCreateSchema
  | atGetPending
  | atUp
  | atClose
  | noFail
deriving DecidableEq

/-- Modelled from the spec: the migration runner's namespace-local tracking
state — the list of migration identifiers already recorded as applied in this
namespace's tracking table. The MikroORM migrator implementing it is not part
of the repository's sources. -/
structure MigState where
  applied : List String
deriving DecidableEq

/-- Observable outcome of one invocation of the migration script:
`exitCode` is `some c` when `process.exit(c)` was called and `none` when the
script returned normally; `connAttempted` records that `MikroORM.init` was
reached (the first network I/O); `connOpened` that it succeeded;
`connClosed` that `orm.close(true)` completed; `ranUp` that `migrator.up()`
completed; `reportedUpToDate` that the script logged the up-to-date message. -/
structure RunResult where
  exitCode : Option Nat
  connAttempted : Bool
  connOpened : Bool
  connClosed : Bool
  ranUp : Bool
  reportedUpToDate : Bool
deriving DecidableEq

/-- Modelled from the spec: `migrator.getPendingMigrations()` — the
migrations, in the runner's deterministic (file-name) order `allMigs`, not
yet recorded in this namespace's tracking table. -/
def pendingOf (allMigs : List String) (st : MigState) : List String :=
  allMigs.filter (fun m => !(st.applied.contains m))

/-- The migration script `runMigrations` (the repository's migrate script):
guard on `DATABASE_URL`, init the ORM, `CREATE SCHEMA IF NOT EXISTS`, query
pending migrations, run `migrator.up()` when any are pending (modelled from
the spec as appending the pending list to the tracking table) or log
up-to-date, close the connection; any thrown step lands in the `catch`
block, which calls `process.exit(1)` without closing the connection. -/
def runMigrations (dbUrl : Option String) (fail : FailAt) (allMigs : List String)
    (st : MigState) : RunResult × MigState :=
  if !(truthy dbUrl) then
    ({ exitCode := some 1, connAttempted := false, connOpened := false,
       connClosed := false, ranUp := false, reportedUpToDate := false }, st)
  else if fail = FailAt.atInit then
    ({ exitCode := some 1, connAttempted := true, connOpened := false,
       connClosed := false, ranUp := false, reportedUpToDate := false }, st)
  else if fail = FailAt.atCreateSchema then
    ({ exitCode := some 1, connAttempted := true, connOpened := true,
       connClosed := false, ranUp := false, reportedUpToDate := false }, st)
  else if fail = FailAt.atGetPending then
    ({ exitCode := some 1, connAttempted := true, connOpened := true,
       connClosed := false, ranUp := false, reportedUpToDate := false }, st)
  else if (pendingOf allMigs st).length > 0 then
    if fail = FailAt.atUp then
      ({ exitCode := some 1, connAttempted := true, connOpened := true,
         connClosed := false, ranUp := false, reportedUpToDate := false }, st)
    else if fail = FailAt.atClose then
      ({ exitCode := some 1, connAttempted := true, connOpened := true,
         connClosed := false, ranUp := true, reportedUpToDate := false },
       { applied := st.applied ++ pendingOf allMigs st })
    else
      ({ exitCode := none, connAttempted := true, connOpened := true,
         connClosed := true, ranUp := true, reportedUpToDate := false },
       { applied := st.applied ++ pendingOf allMigs st })
  else
    if fail = FailAt.atClose then
      ({ exitCode := some 1, connAttempted := true, connOpened := true,
         connClosed := false, ranUp := false, reportedUpToDate := true }, st)
    else
      ({ exitCode := none, connAttempted := true, connOpened := true,
         connClosed := true, ranUp := false, reportedUpToDate := true }, st)

/-- Modelled from the spec: the database's set of existing namespaces
(schemas), the state the teardown trigger acts on. -/
structure Database where
  schemas : List String
deriving DecidableEq

/-- Modelled from the spec: the teardown statement
`DROP SCHEMA IF EXISTS "<ns>" CASCADE` issued by the cleanup workflow —
removes the namespace and everything in it when present, succeeds either
way (`IF EXISTS`). The `Bool` is success of the statement. -/
def dropNamespace (db : Database) (ns : String) : Database × Bool :=
  ({ schemas := db.schemas.filter (fun s => !(s == ns)) }, true)

theorem char_toNat_ofNat (n : Nat) (h : n < 55296) : (Char.ofNat n).toNat = n := by
  have hv : n.isValidChar := Or.inl h
  simp [Char.ofNat, dif_pos hv, Char.ofNatAux, Char.toNat, UInt32.toNat]

theorem toLower_toNat_of_upper (c : Char) (h1 : 65 ≤ c.toNat) (h2 : c.toNat ≤ 90) :
    (Char.toLower c).toNat = c.toNat + 32 := by
  unfold Char.toLower
  rw [if_pos ⟨h1, h2⟩]
  exact char_toNat_ofNat _ (by omega)

theorem toLower_eq_of_not_upper (c : Char) (h : ¬ (65 ≤ c.toNat ∧ c.toNat ≤ 90)) :
    Char.toLower c = c := by
  unfold Char.toLower
  rw [if_neg h]

theorem lowerAllowed_of_step2_toLower (c : Char) :
    isLowerAllowedChar (Char.toLower (sanitizeStep2 c)) = true := by
  by_cases h : isAllowedChar c = true
  · rw [sanitizeStep2, if_pos h]
    simp [isAllowedChar] at h
    by_cases hu : 65 ≤ c.toNat ∧ c.toNat ≤ 90
    · have hl := toLower_toNat_of_upper c hu.1 hu.2
      simp [isLowerAllowedChar, hl]
      omega
    · rw [toLower_eq_of_not_upper c hu]
      simp [isLowerAllowedChar]
      omega
  · rw [sanitizeStep2, if_neg h]
    decide

theorem mem_sanitizeList_lowerAllowed (l : List Char) (c : Char)
    (hc : c ∈ sanitizeList l) : isLowerAllowedChar c = true := by
  unfold sanitizeList at hc
  have hc2 := List.mem_of_mem_take hc
  rcases List.mem_map.mp hc2 with ⟨b, hb, rfl⟩
  rcases List.mem_map.mp hb with ⟨a, _, rfl⟩
  exact lowerAllowed_of_step2_toLower a

theorem sanitizeList_length_le (l : List Char) : (sanitizeList l).length ≤ 60 := by
  unfold sanitizeList
  rw [List.length_take]
  omega

theorem step1_fixed (c : Char) (h : isLowerAllowedChar c = true) :
    sanitizeStep1 c = c := by
  simp [isLowerAllowedChar] at h
  rw [sanitizeStep1, if_neg]
  simp
  omega

theorem step2_fixed (c : Char) (h : isLowerAllowedChar c = true) :
    sanitizeStep2 c = c := by
  simp [isLowerAllowedChar] at h
  rw [sanitizeStep2, if_pos]
  simp [isAllowedChar]
  omega

theorem toLower_fixed (c : Char) (h : isLowerAllowedChar c = true) :
    Char.toLower c = c := by
  simp [isLowerAllowedChar] at h
  exact toLower_eq_of_not_upper c (by omega)

theorem sanitizeList_fixed (l : List Char)
    (hchar : ∀ c ∈ l, isLowerAllowedChar c = true) (hlen : l.length ≤ 60) :
    sanitizeList l = l := by
  unfold sanitizeList
  rw [List.map_congr_left (fun a ha => step1_fixed a (hchar a ha)), List.map_id',
    List.map_congr_left (fun a ha => step2_fixed a (hchar a ha)), List.map_id',
    List.map_congr_left (fun a ha => toLower_fixed a (hchar a ha)), List.map_id',
    List.take_of_length_le hlen]

theorem mem_sanitizeBranchName_lowerAllowed (branch : String) (c : Char)
    (hc : c ∈ (sanitizeBranchName branch).data) : isLowerAllowedChar c = true := by
  unfold sanitizeBranchName at hc
  by_cases h : sanitizeList branch.data = []
  · rw [if_pos h] at hc
    rw [show "public".data = ['p', 'u', 'b', 'l', 'i', 'c'] from rfl] at hc
    fin_cases hc <;> decide
  · rw [if_neg h] at hc
    exact mem_sanitizeList_lowerAllowed branch.data c hc

theorem pendingOf_append (allMigs : List String) (st : MigState) :
    pendingOf allMigs { applied := st.applied ++ pendingOf allMigs st } = [] := by
  unfold pendingOf
  rw [List.filter_eq_nil_iff]
  intro m hm
  by_cases hmem : m ∈ st.applied
  · simp [List.mem_append, hmem]
  · have hpend : m ∈ pendingOf allMigs st := by
      simp [pendingOf, List.mem_filter, hm, hmem]
    simp [List.mem_append, hpend, hm, hmem]

/-- Claim C1: the spec says the sanitizer strips every character outside
`[a-zA-Z0-9_]`, so that branch `Feature/Add-Auth!!` resolves to
`feature_add_auth`. The code instead replaces such characters with
underscores: the same input resolves to `feature_add_auth__`. -/
theorem claim1_sanitizer_replaces_not_strips :
    getSchemaName ⟨none, none, some "Feature/Add-Auth!!"⟩ = "feature_add_auth__" ∧
      "feature_add_auth__" ≠ "feature_add_auth" := by
  constructor
  · rfl
  · decide

/-- Claim C2: the spec says a branch name of only disallowed characters
resolves to the default `public`. Because the code replaces disallowed
characters with underscores instead of stripping them, the sanitized string
is never empty and the `public` fallback never fires: branch `!!!` resolves
to `___`. -/
theorem claim2_all_disallowed_branch_not_public :
    getSchemaName ⟨none, none, some "!!!"⟩ = "___" ∧ "___" ≠ "public" := by
  constructor
  · rfl
  · decide

/-- Claim C3: when the explicit override signal `DB_SCHEMA` is present (set
and non-empty), resolution returns it verbatim, regardless of the other
signals. -/
theorem claim3_override_verbatim (env : Env) (s : String)
    (h1 : env.DB_SCHEMA = some s) (h2 : s ≠ "") : getSchemaName env = s := by
  simp [getSchemaName, h1, truthy, h2]

/-- Claim C3 witness: the spec's scenario override=`public`, pr-id=`42`,
branch=`feature/x` resolves to `public`. -/
theorem claim3_witness :
    getSchemaName ⟨some "public", some "42", some "feature/x"⟩ = "public" :=
  claim3_override_verbatim _ "public" rfl (by decide)

/-- Claim C4: with no override and a numeric pull-request signal `s`,
resolution returns `pr_` followed by `s`, taking priority over any branch
signal. -/
theorem claim4_pr_number_priority (env : Env) (s : String)
    (h1 : truthy env.DB_SCHEMA = false)
    (h2 : env.VERCEL_GIT_PULL_REQUEST_ID = some s)
    (h3 : isNumericString s = true) : getSchemaName env = "pr_" ++ s := by
  simp [isNumericString] at h3
  have hs : truthy (some s) = true := by simp [truthy, h3.1]
  simp [getSchemaName, h1, h2, hs]

/-- Claim C4 witness: the spec's scenario override=absent, pr-id=`42`,
branch=`feature/x` resolves to `pr_42`. -/
theorem claim4_witness :
    getSchemaName ⟨none, some "42", some "feature/x"⟩ = "pr_42" :=
  claim4_pr_number_priority _ "42" rfl rfl (by decide)

/-- Claim C5 counterexample: the sanitizer performs no reserved-identifier
check — input `pg_catalog` sanitizes to itself, violating the spec's
NamespaceIdentifier invariant as stated. -/
theorem claim5_counterexample :
    ¬ NamespaceInvariantSpec (sanitizeBranchName "pg_catalog") := by
  intro h
  exact h.2.2.2.1 (by decide)

/-- Claim C5 (amended): for every input the sanitizer's output is non-empty,
consists only of lowercase ASCII letters, digits and underscores, and has
length at most 60; the code never compares against the reserved identifiers
`pg_catalog` and `information_schema`. -/
theorem claim5_amended_invariant (branch : String) :
    sanitizeBranchName branch ≠ "" ∧
      (∀ c ∈ (sanitizeBranchName branch).data, isLowerAllowedChar c = true) ∧
      (sanitizeBranchName branch).length ≤ 60 := by
  refine ⟨?_, fun c hc => mem_sanitizeBranchName_lowerAllowed branch c hc, ?_⟩
  · unfold sanitizeBranchName
    by_cases h : sanitizeList branch.data = []
    · rw [if_pos h]
      decide
    · rw [if_neg h]
      intro heq
      exact h (congrArg String.data heq)
  · unfold sanitizeBranchName
    by_cases h : sanitizeList branch.data = []
    · rw [if_pos h]
      decide
    · rw [if_neg h]
      show (sanitizeList branch.data).length ≤ 60
      exact sanitizeList_length_le branch.data

/-- Claim C10: sanitization is idempotent — sanitizing an already-sanitized
branch name changes nothing. -/
theorem claim10_sanitize_idempotent (x : String) :
    sanitizeBranchName (sanitizeBranchName x) = sanitizeBranchName x := by
  by_cases h : sanitizeList x.data = []
  · have h1 : sanitizeBranchName x = "public" := by
      unfold sanitizeBranchName
      rw [if_pos h]
    rw [h1]
    rfl
  · have h1 : sanitizeBranchName x = String.mk (sanitizeList x.data) := by
      unfold sanitizeBranchName
      rw [if_neg h]
    rw [h1]
    have hfix : sanitizeList (String.mk (sanitizeList x.data)).data
        = sanitizeList x.data :=
      sanitizeList_fixed _ (fun c hc => mem_sanitizeList_lowerAllowed x.data c hc)
        (sanitizeList_length_le x.data)
    unfold sanitizeBranchName
    rw [show (String.mk (sanitizeList x.data)).data = sanitizeList x.data from rfl,
      hfix]
    rw [if_neg h]

/-- Claim C6 counterexample: with `DATABASE_URL` set, a failure at
`migrator.up()` reaches the `catch` block, which exits with status 1 while
the acquired connection is still open — the connection is not closed on this
exit path. -/
theorem claim6_counterexample :
    (runMigrations (some "postgresql://u") FailAt.atUp ["m1"] ⟨[]⟩).1.connOpened
        = true ∧
      (runMigrations (some "postgresql://u") FailAt.atUp ["m1"] ⟨[]⟩).1.connClosed
        = false ∧
      (runMigrations (some "postgresql://u") FailAt.atUp ["m1"] ⟨[]⟩).1.exitCode
        = some 1 := by
  refine ⟨rfl, rfl, rfl⟩

/-- Claim C6 (amended): the lifecycle run closes its database connection on
the successful exit path; on every caught failure it exits with a non-zero
status without having closed the connection (there is no close in the
`catch` block and no `finally`). -/
theorem claim6_amended_close_only_on_success (url : Option String) (fail : FailAt)
    (allMigs : List String) (st : MigState) :
    ((runMigrations url fail allMigs st).1.exitCode = none →
        (runMigrations url fail allMigs st).1.connOpened = true ∧
          (runMigrations url fail allMigs st).1.connClosed = true) ∧
      ((runMigrations url fail allMigs st).1.exitCode ≠ none →
        (runMigrations url fail allMigs st).1.connClosed = false) := by
  unfold runMigrations
  split_ifs <;> simp

/-- Claim C6 witness: both amended branches at concrete inputs — a fully
successful run closes the connection; a run failing at schema creation does
not. -/
theorem claim6_amended_witness :
    ((runMigrations (some "postgresql://u") FailAt.noFail [] ⟨[]⟩).1.connOpened
          = true ∧
        (runMigrations (some "postgresql://u") FailAt.noFail [] ⟨[]⟩).1.connClosed
          = true) ∧
      (runMigrations (some "postgresql://u") FailAt.atCreateSchema [] ⟨[]⟩).1.connClosed
        = false :=
  ⟨(claim6_amended_close_only_on_success (some "postgresql://u") FailAt.noFail []
      ⟨[]⟩).1 (by decide),
    (claim6_amended_close_only_on_success (some "postgresql://u")
      FailAt.atCreateSchema [] ⟨[]⟩).2 (by decide)⟩

/-- Claim C7: when `DATABASE_URL` is absent the lifecycle run exits with
status 1 before attempting any network I/O (no `MikroORM.init` call), leaving
the migration state untouched. -/
theorem claim7_missing_dsn_fails_fast (fail : FailAt) (allMigs : List String)
    (st : MigState) :
    runMigrations none fail allMigs st =
      ({ exitCode := some 1, connAttempted := false, connOpened := false,
         connClosed := false, ranUp := false, reportedUpToDate := false }, st) := by
  unfold runMigrations
  simp [truthy]

/-- Claim C8: with a connection string present and no step failing —
if the namespace's pending set is empty, the run reports up-to-date and
returns success (exit code absent, connection closed) without applying
anything; if it is non-empty, the run applies exactly the pending migrations
in the runner's order, succeeds, and a recomputation of the pending set
against the resulting tracking state is empty. -/
theorem claim8_pending_migrations (url : Option String) (allMigs : List String)
    (st : MigState) (hurl : truthy url = true) :
    (pendingOf allMigs st = [] →
        runMigrations url FailAt.noFail allMigs st =
          ({ exitCode := none, connAttempted := true, connOpened := true,
             connClosed := true, ranUp := false, reportedUpToDate := true }, st)) ∧
      (pendingOf allMigs st ≠ [] →
        (runMigrations url FailAt.noFail allMigs st).2.applied
            = st.applied ++ pendingOf allMigs st ∧
          (runMigrations url FailAt.noFail allMigs st).1.exitCode = none ∧
          (runMigrations url FailAt.noFail allMigs st).1.ranUp = true ∧
          pendingOf allMigs (runMigrations url FailAt.noFail allMigs st).2 = []) := by
  constructor
  · intro hp
    unfold runMigrations
    simp [hurl, hp]
  · intro hp
    have hlen : (pendingOf allMigs st).length > 0 := List.length_pos.mpr hp
    unfold runMigrations
    simp [hurl, hlen]
    exact pendingOf_append allMigs st

/-- Claim C8 witness: both branches at concrete inputs — a namespace with
both migrations recorded reports up-to-date unchanged, and a fresh namespace
after one run has an empty pending set. -/
theorem claim8_witness :
    runMigrations (some "postgresql://u") FailAt.noFail ["m1", "m2"]
        ⟨["m1", "m2"]⟩ =
      ({ exitCode := none, connAttempted := true, connOpened := true,
         connClosed := true, ranUp := false, reportedUpToDate := true },
        ⟨["m1", "m2"]⟩) ∧
      pendingOf ["m1", "m2"]
        (runMigrations (some "postgresql://u") FailAt.noFail ["m1", "m2"]
          ⟨[]⟩).2 = [] :=
  ⟨(claim8_pending_migrations (some "postgresql://u") ["m1", "m2"] ⟨["m1", "m2"]⟩
      (by decide)).1 (by decide),
    ((claim8_pending_migrations (some "postgresql://u") ["m1", "m2"] ⟨[]⟩
      (by decide)).2 (by decide)).2.2.2⟩

/-- Claim C9: teardown is idempotent — dropping an absent namespace succeeds
and changes nothing, and dropping twice in sequence leaves the same end state
(and the same success) as dropping once. -/
theorem claim9_teardown_idempotent (db : Database) (ns : String) :
    (ns ∉ db.schemas → dropNamespace db ns = (db, true)) ∧
      dropNamespace (dropNamespace db ns).1 ns = dropNamespace db ns := by
  constructor
  · intro h
    unfold dropNamespace
    have hfix : db.schemas.filter (fun s => !(s == ns)) = db.schemas := by
      rw [List.filter_eq_self]
      intro a ha
      simp
      intro heq
      exact h (heq ▸ ha)
    rw [hfix]
  · unfold dropNamespace
    simp [List.filter_filter]

/-- Claim C9 witness: dropping `pr_2` on a database holding only `public`
and `pr_3` succeeds as a no-op, and repeating the drop changes nothing. -/
theorem claim9_witness :
    dropNamespace ⟨["public", "pr_3"]⟩ "pr_2" = (⟨["public", "pr_3"]⟩, true) ∧
      dropNamespace (dropNamespace ⟨["public", "pr_3"]⟩ "pr_2").1 "pr_2" =
        dropNamespace ⟨["public", "pr_3"]⟩ "pr_2" :=
  ⟨(claim9_teardown_idempotent ⟨["public", "pr_3"]⟩ "pr_2").1 (by decide),
    (claim9_teardown_idempotent ⟨["public", "pr_3"]⟩ "pr_2").2⟩
